import Mathlib

/-!
Verification development for the SeeAct Chrome extension's element-discovery
and visibility engine (`BrowserHelper` in the content-script source, plus the
prompt-formatting utilities).

Shallow embedding conventions:
* DOM elements are modelled as finite trees (`Elem`/`ElemList`, a mutual
  inductive so that all recursion stays structural).  Each element carries the
  data the analysed functions read: tag name, the `hidden` attribute, `role`
  and `type` attributes, which CSS selectors it matches, whether it has an
  `onclick` property, whether it hosts a shadow root (with that shadow scope's
  content), whether (for iframes) its content document is accessible, its
  computed style and its bounding client rect.
* Tag names are stored in lowercase normal form: every comparison in the
  source first applies `toLowerCase()`, so the model makes lowercasing the
  identity.
* Reference identity (`===`) and `Node.contains` are modelled through unique
  numeric element ids: `contains` is membership of the target id in the
  element's (light-DOM) subtree, which matches `Node.contains` (it does not
  pierce shadow boundaries) under the assumption that ids are unique.
* Coordinates are exact rationals; JavaScript numbers only ever undergo
  addition, subtraction, halving and comparisons in the analysed code, all of
  which are exact there.
* Host-runtime capabilities (the `DomWrapper` adapter: viewport dimensions and
  hit testing via `elementsFromPoint`) are injected through `DomEnv`, exactly
  as the source injects `DomWrapper`.  `actualElementFromPoint` is modelled as
  the injected hit-testing oracle, a fixed function from a search context
  (identified by the owning iframe's element id, `none` meaning the top
  document) and a query point to the id of the topmost element there.
  The description generator (`getElementDescription`) and the xpath used in
  descriptor construction are likewise injected, since no claim concerns
  their output values.
* Fallible operations (`getIframeContent`, which catches `SecurityError` for
  cross-origin iframes and returns `null`) return `Option`.
* `formatChoices` throws; the model returns `Except`.
-/

/-- Computed-style record: the five CSS properties `calcIsHidden` reads. -/
structure CompStyle where
  display : String
  visibility : String
  width : String
  height : String
  opacity : String

/-- Bounding client rect, as returned by `grabClientBoundingRect`. -/
structure Rect where
  x : ℚ
  y : ℚ
  w : ℚ
  h : ℚ

/-- Per-element data read by the analysed functions (see module comment). -/
structure ElemCore where
  id : Nat
  tag : String
  hidden : Bool
  roleAttr : Option String
  typeAttr : Option String
  selectors : List String
  onclick : Bool
  hasShadowRoot : Bool
  iframeContentAccessible : Bool
  style : CompStyle
  rect : Rect

mutual
/-- A DOM element: its scalar data, its light-DOM children, and (when
`hasShadowRoot` is set) the top-level elements of its shadow root's scope. -/
inductive Elem where
  | mk (core : ElemCore) (children : ElemList) (shadowChildren : ElemList)
/-- A list of elements, kept in the mutual block so recursion over element
trees stays structural and kernel-reducible. -/
inductive ElemList where
  | nil
  | cons (head : Elem) (tail : ElemList)
end

def Elem.core : Elem → ElemCore
  | .mk c _ _ => c

def Elem.children : Elem → ElemList
  | .mk _ ch _ => ch

def Elem.shadowChildren : Elem → ElemList
  | .mk _ _ sh => sh

def ElemList.toList : ElemList → List Elem
  | .nil => []
  | .cons h t => h :: ElemList.toList t

mutual
/-- One node of the `IframeTree`: the embedding iframe element (`none` at the
root, or when the tree recorded a corrupted node), the node's coordinate
offset from the top viewport (`coordsOffsetFromViewport`), the top-level
elements of the iframe's content document, and the child iframe nodes. -/
inductive IframeNode where
  | mk (iframe : Option Elem) (offsetX : ℚ) (offsetY : ℚ)
       (content : ElemList) (children : IframeNodeList)
inductive IframeNodeList where
  | nil
  | cons (head : IframeNode) (tail : IframeNodeList)
end

def IframeNode.iframe : IframeNode → Option Elem
  | .mk f _ _ _ _ => f

def IframeNode.offsetX : IframeNode → ℚ
  | .mk _ ox _ _ _ => ox

def IframeNode.offsetY : IframeNode → ℚ
  | .mk _ _ oy _ _ => oy

def IframeNode.content : IframeNode → ElemList
  | .mk _ _ _ c _ => c

def IframeNode.children : IframeNode → IframeNodeList
  | .mk _ _ _ _ ch => ch

def IframeNodeList.toList : IframeNodeList → List IframeNode
  | .nil => []
  | .cons h t => h :: IframeNodeList.toList t

/-- Injected host capabilities (the `DomWrapper` adapter plus the two
components no claim inspects; see the module comment). -/
structure DomEnv where
  viewportWidth : ℚ
  viewportHeight : ℚ
  elementFromPoint : Option Nat → ℚ → ℚ → Option Nat
  describe : Elem → Option String
  fullXpathOf : Elem → String

mutual
/-- Ids of an element and all its light-DOM descendants (the reach of
`Node.contains`, which does not pierce shadow roots). -/
def subtreeIds : Elem → List Nat
  | .mk core children _ => core.id :: subtreeIdsList children
def subtreeIdsList : ElemList → List Nat
  | .nil => []
  | .cons e tl => subtreeIds e ++ subtreeIdsList tl
end

/-- Model of `element.contains(target)` for a hit-test result: false for
`null`, otherwise ancestor-or-self via unique-id subtree membership. -/
def containsId (element : Elem) (target : Option Nat) : Bool :=
  match target with
  | none => false
  | some n => decide (n ∈ subtreeIds element)

mutual
/-- All elements of a scope (a document or shadow root given by its top-level
element list), i.e. the result of `fetchElementsByCss('*', root)`: descends
through light-DOM children but neither shadow roots nor iframe documents. -/
def elemScopeAll : Elem → List Elem
  | .mk core children sh => .mk core children sh :: elemListScopeAll children
def elemListScopeAll : ElemList → List Elem
  | .nil => []
  | .cons e tl => elemScopeAll e ++ elemListScopeAll tl
end

/-- Model of `DomWrapper.fetchElementsByCss(selector, root)`: CSS matching is
abstracted by each element's list of matched selectors. -/
def fetchElementsByCss (cssSelector : String) (root : ElemList) : List Elem :=
  (elemListScopeAll root).filter (fun e => decide (cssSelector ∈ e.core.selectors))

/-- Serializable part of an element descriptor (`SerializableElementData` in
misc.ts, which is not among the provided sources; fields reconstructed from
their uses in `getElementData` and the spec's ElementDescriptor). -/
structure SerializableElementData where
  centerCoords : ℚ × ℚ
  description : String
  tagHead : String
  boundingBoxTLx : ℚ
  boundingBoxTLy : ℚ
  boundingBoxBRx : ℚ
  boundingBoxBRy : ℚ
  width : ℚ
  height : ℚ
  tagName : String
  xpath : String
  interactivesIndex : Option Nat

/-- Full element descriptor: the serializable fields plus the raw element
handle (`ElementData extends SerializableElementData` in misc.ts). -/
structure ElementData extends SerializableElementData where
  element : Elem

/-- Element together with its recorded `documentHostChain` (the optional
extra field of `HTMLElementWithDocumentHost`), listing the iframe embedding
elements crossed on the way up to the top document, innermost first; an
absent chain is modelled as the empty list. -/
structure HostedElem where
  elem : Elem
  documentHostChain : List Elem

/-- Source: `makeElementDataSerializable` (content-script helper file, lines
21-27): spread-copies the descriptor and deletes the `element` field. -/
def makeElementDataSerializable (elementData : ElementData) : SerializableElementData :=
  elementData.toSerializableElementData

/-- Renders one optional attribute for the tag head, with JavaScript
truthiness: a missing attribute or the empty string contributes nothing. -/
def attrFragment (label : String) (attrValue : Option String) : String :=
  match attrValue with
  | some v => if v = "" then "" else " " ++ label ++ "=\"" ++ v ++ "\""
  | none => ""

/-- Source: `BrowserHelper.getElementData` (lines 300-345).  The description
comes from the injected description generator with the source's fallbacks;
the host-chain loop accumulating iframe offsets is the `foldl`; the source's
`delete element.documentHostChain` mutation is irrelevant in the pure model. -/
def getElementData (env : DomEnv) (hostedElem : HostedElem) : ElementData :=
  let element := hostedElem.elem
  let tagName := element.core.tag
  let fallbackDesc : String :=
    if tagName = "iframe" ∧ element.core.iframeContentAccessible = false
    then "cross_origin_iframe" else "description_unavailable"
  let description :=
    match env.describe element with
    | some d => if d = "" then fallbackDesc else d
    | none => fallbackDesc
  let tagHead := tagName ++ attrFragment "role" element.core.roleAttr
      ++ attrFragment "type" element.core.typeAttr
  let boundingRect := element.core.rect
  let elemX := hostedElem.documentHostChain.foldl
      (fun acc host => acc + host.core.rect.x) boundingRect.x
  let elemY := hostedElem.documentHostChain.foldl
      (fun acc host => acc + host.core.rect.y) boundingRect.y
  { centerCoords := (elemX + boundingRect.w / 2, elemY + boundingRect.h / 2),
    description := description, tagHead := tagHead,
    boundingBoxTLx := elemX, boundingBoxTLy := elemY,
    boundingBoxBRx := elemX + boundingRect.w, boundingBoxBRy := elemY + boundingRect.h,
    width := boundingRect.w, height := boundingRect.h, tagName := tagName,
    xpath := env.fullXpathOf element, interactivesIndex := none,
    element := element }

mutual
/-- Path-resolution view of an element, carrying exactly the inputs
`getFullXpath` consumes.  Modelled from the spec (section 4.5) for the parts
outside the provided sources: `libXpath` is the result of the third-party
`getXPath` library call, `shadowHost` records whether `getRootNode()` is a
shadow root (and then its host element), and `iframePath` is the result of
`IframeTree.getIframePathForElement` (IframeTree.ts is not among the
provided sources), each entry being that iframe node's embedding element or
the corrupted-node case where it is null. -/
inductive XpathElem where
  | mk (libXpath : String) (shadowHost : XpathShadowHost) (iframePath : XpathIframePath)
inductive XpathShadowHost where
  | notInShadow
  | hostedBy (host : XpathElem)
inductive XpathIframePath where
  | nil
  | cons (frameElem : XpathFrameRef) (rest : XpathIframePath)
inductive XpathFrameRef where
  | corrupted
  | frame (iframeElem : XpathElem)
end

def XpathElem.libXpath : XpathElem → String
  | .mk l _ _ => l

def XpathElem.shadowHost : XpathElem → XpathShadowHost
  | .mk _ s _ => s

def XpathElem.iframePath : XpathElem → XpathIframePath
  | .mk _ _ p => p

mutual
/-- Source: `BrowserHelper.getFullXpath` (lines 268-283): the helper xpath,
prefixed (via the downward loop over the iframe path, here
`prependIframeSegments`) with each crossed iframe's helper xpath, or the
corrupted-node sentinel where the recorded iframe element is null. -/
def getFullXpath : XpathElem → String
  | .mk lib sh path => prependIframeSegments path (getFullXpathHelper (.mk lib sh path))
termination_by e => (sizeOf e, 1)

/-- Source: `BrowserHelper.getFullXpathHelper` (lines 285-292): the library
xpath, prefixed with the shadow host's full xpath and the shadow-boundary
marker when the element's root is a shadow root. -/
def getFullXpathHelper : XpathElem → String
  | .mk lib .notInShadow _ => lib
  | .mk lib (.hostedBy host) _ => getFullXpath host ++ "/shadow-root()" ++ lib
termination_by e => (sizeOf e, 0)

/-- The prefix loop of `getFullXpath` (lines 271-281), which walks the
recorded iframe path from the last entry down to the first, prepending each
entry's helper xpath (so the first entry ends up leftmost). -/
def prependIframeSegments : XpathIframePath → String → String
  | .nil, overallXpath => overallXpath
  | .cons f rest, overallXpath =>
    (match f with
     | .corrupted => "/corrupted-node-in-iframe-tree()"
     | .frame iframeElem => getFullXpathHelper iframeElem)
    ++ prependIframeSegments rest overallXpath
termination_by p _ => (sizeOf p, 2)
end

/-- Type triple fed to `formatChoices`: description, tag-with-role/type head,
and tag name. -/
abbrev StrTriple := String × String × String

/-- Pair returned by `formatChoices`: stringified index and abbreviated html. -/
abbrev StrPair := String × String

/-- Splits a character list at whitespace runs; models the JavaScript
`split(/\s+/)` used on element descriptions (the edge case of a leading
empty segment is dropped here; no verified property inspects it). -/
def splitWsAux : List Char → List Char → List (List Char)
  | [], acc => [acc.reverse]
  | c :: rest, acc =>
    if c.isWhitespace then acc.reverse :: splitWsAux rest []
    else splitWsAux rest (c :: acc)

def splitOnWhitespace (s : String) : List String :=
  ((splitWsAux s.toList []).filter (fun seg => seg ≠ [])).map (fun seg => String.mk seg)

/-- Source: `formatChoices` (src/utils/format_prompts.ts, lines 37-55).  The
`throw new Error(...)` on out-of-range candidate ids becomes `Except.error`. -/
def formatChoices (elements : List StrTriple) (candidateIds : List Int) :
    Except String (List StrPair) :=
  let badCandidateIds := candidateIds.filter
      (fun id => decide (id < 0 ∨ (elements.length : Int) ≤ id))
  if badCandidateIds = [] then
    Except.ok (candidateIds.map (fun id =>
      let entry := elements.getD id.toNat ("", "", "")
      let description := entry.1
      let tagAndRoleType := entry.2.1
      let tagName := entry.2.2
      let descriptionSplit := splitOnWhitespace description
      let possiblyAbbrevDesc :=
        if tagName ≠ "select" ∧ 30 ≤ descriptionSplit.length
        then String.intercalate " " (descriptionSplit.take 29) ++ "..."
        else description
      let abbreviatedHtml := "<" ++ tagAndRoleType ++ " id=\"" ++ toString id ++ "\">"
          ++ possiblyAbbrevDesc ++ "</" ++ tagName ++ ">"
      (toString id, abbreviatedHtml)))
  else
    Except.error ("out of the candidate ids " ++ toString badCandidateIds
      ++ ", some were out of range")

/-- Model of `isInputElement` (a type guard declared in misc.ts, which is not
among the provided sources).  Modelled from the spec: the occlusion
exemption concerns "checkbox-type inputs", so the guard holds exactly for
elements with tag name `input` (tags are stored lowercased). -/
def isInputElement (element : Elem) : Bool :=
  decide (element.core.tag = "input")

/-- Model of the `type` property of an input element: the `type` attribute,
defaulting to `text` when absent (attribute values are modelled in their
normalized lowercase form). -/
def inputTypeProp (element : Elem) : String :=
  element.core.typeAttr.getD "text"

/-- Source: `BrowserHelper.getIframeContent` (lines 534-549): returns the
iframe's content document, or `null` (here `none`) when access fails with a
cross-origin `SecurityError`; the try/catch is absorbed into the `Option`.
The content scope itself is stored on the iframe's tree node, so the model
takes it alongside the element whose accessibility flag is consulted. -/
def getIframeContent (iframeElem : Elem) (nodeContent : ElemList) : Option ElemList :=
  if iframeElem.core.iframeContentAccessible = true then some nodeContent else none

/-- Search context used by the occlusion test's hit-test queries: the content
document of the element's iframe when it exists and is accessible (identified
by the iframe element's id), otherwise the top-level document. -/
def searchContextFor (iframeNode : IframeNode) : Option Nat :=
  match iframeNode.iframe with
  | none => none
  | some f => if f.core.iframeContentAccessible = true then some f.core.id else none

/-- Source: `BrowserHelper.isFullyOutsideViewport` (lines 465-472). -/
def isFullyOutsideViewport (env : DomEnv) (element : Elem) (iframeNode : IframeNode) : Bool :=
  let elemRect := element.core.rect
  let elemXRelToViewport := elemRect.x + iframeNode.offsetX
  let elemYRelToViewport := elemRect.y + iframeNode.offsetY
  if elemXRelToViewport + elemRect.w ≤ 0 ∨ elemYRelToViewport + elemRect.h ≤ 0
     ∨ elemXRelToViewport ≥ env.viewportWidth ∨ elemYRelToViewport ≥ env.viewportHeight
  then true else false

/-- The five occlusion sample points of `isBuriedInBackground` (lines
433-437): the four box corners inset by one unit, plus the box center. -/
def occlusionQueryPoints (boundRect : Rect) : List (ℚ × ℚ) :=
  [(boundRect.x + 1, boundRect.y + 1),
   (boundRect.x + boundRect.w - 1, boundRect.y + 1),
   (boundRect.x + 1, boundRect.y + boundRect.h - 1),
   (boundRect.x + boundRect.w - 1, boundRect.y + boundRect.h - 1),
   (boundRect.x + boundRect.w / 2, boundRect.y + boundRect.h / 2)]

/-- The query loop of `isBuriedInBackground` (lines 447-453): runs while the
element is still considered buried, clearing the flag (and thereby stopping)
at the first sampled point whose topmost element the target contains. -/
def buriedQueryLoop (env : DomEnv) (element : Elem) (searchContext : Option Nat) :
    List (ℚ × ℚ) → Bool
  | [] => true
  | p :: rest =>
    if containsId element (env.elementFromPoint searchContext p.1 p.2) = true then false
    else buriedQueryLoop env element searchContext rest

/-- Source: `BrowserHelper.isBuriedInBackground` (lines 423-455). -/
def isBuriedInBackground (env : DomEnv) (element : Elem) (iframeNode : IframeNode) : Bool :=
  let boundRect := element.core.rect
  if boundRect.w = 0 ∨ boundRect.h = 0 then false
  else if element.core.tag = "select"
      ∨ (isInputElement element = true ∧ inputTypeProp element = "checkbox") then false
  else
    buriedQueryLoop env element (searchContextFor iframeNode) (occlusionQueryPoints boundRect)

/-- True when the computed display value contains the substring `inline`
(the source's `display.indexOf("inline") !== -1`). -/
def charsStartWith : List Char → List Char → Bool
  | [], _ => true
  | _ :: _, [] => false
  | a :: as, b :: bs => a == b && charsStartWith as bs

def charsContainSeg (pat : List Char) : List Char → Bool
  | [] => charsStartWith pat []
  | c :: tl => charsStartWith pat (c :: tl) || charsContainSeg pat tl

def hasInlineDisplay (display : String) : Bool :=
  charsContainSeg "inline".toList display.toList

mutual
/-- Source: `BrowserHelper.calcIsHidden` (lines 357-421); the `shouldDebug`
parameter only controls logging and is dropped.  The locals `inv1`-`inv4`
model the successive states of the mutated `doesElemSeemInvisible` flag:
explicit hiding (hidden attribute, `display:none`, `visibility:hidden`);
zero-size checks (skipped for shadow-root hosts); the 1px/zero-opacity
heuristic (skipped for inputs); the buried-in-background check (only when
still visible, not a document-host container, and not fully outside the
viewport); finally the inline-display override that reclassifies the element
visible when any child is recursively visible. -/
def calcIsHidden (env : DomEnv) : Elem → IframeNode → Bool → Bool
  | .mk core children sh, iframeNode, isDocHostElem =>
    let element : Elem := .mk core children sh
    let st := core.style
    let elemBoundRect := core.rect
    let inv1 : Bool :=
      if core.hidden = true ∨ st.display = "none" ∨ st.visibility = "hidden"
      then true else false
    let inv2 : Bool :=
      if core.hasShadowRoot = false then
        if inv1 = true ∨ st.height = "0px" ∨ st.width = "0px"
           ∨ elemBoundRect.w = 0 ∨ elemBoundRect.h = 0
        then true else false
      else inv1
    let inv3 : Bool :=
      if core.tag ≠ "input" then
        if inv2 = true ∨ st.height = "1px" ∨ st.width = "1px" ∨ st.opacity = "0"
        then true else false
      else inv2
    let inv4 : Bool :=
      if inv3 = false ∧ isDocHostElem = false then
        if isFullyOutsideViewport env element iframeNode = false
        then isBuriedInBackground env element iframeNode
        else inv3
      else inv3
    if inv4 = true ∧ hasInlineDisplay st.display = true then
      if hasVisibleChild env children iframeNode = true then false else inv4
    else inv4

/-- The child loop of the inline-display override (lines 401-407): true as
soon as some child is classified visible by the recursive call (with
`isDocHostElem = false`). -/
def hasVisibleChild (env : DomEnv) : ElemList → IframeNode → Bool
  | .nil, _ => false
  | .cons c tl, iframeNode =>
    if calcIsHidden env c iframeNode false = false then true
    else hasVisibleChild env tl iframeNode
end

/-- Source: `BrowserHelper.findQueryPointsInOverlap` (lines 750-770). -/
def findQueryPointsInOverlap (elem1Data elem2Data : ElementData) : List (ℚ × ℚ) :=
  let overlapLeftX := max elem1Data.boundingBoxTLx elem2Data.boundingBoxTLx
  let overlapRightX := min elem1Data.boundingBoxBRx elem2Data.boundingBoxBRx
  let overlapTopY := max elem1Data.boundingBoxTLy elem2Data.boundingBoxTLy
  let overlapBottomY := min elem1Data.boundingBoxBRy elem2Data.boundingBoxBRy
  if overlapLeftX ≥ overlapRightX ∨ overlapTopY ≥ overlapBottomY then []
  else
    [(overlapLeftX + 1, overlapTopY + 1), (overlapRightX - 1, overlapTopY + 1),
     (overlapLeftX + 1, overlapBottomY - 1), (overlapRightX - 1, overlapBottomY - 1)]
    ++ (if overlapLeftX ≤ elem1Data.centerCoords.1 ∧ elem1Data.centerCoords.1 ≤ overlapRightX
          ∧ overlapTopY ≤ elem1Data.centerCoords.2 ∧ elem1Data.centerCoords.2 ≤ overlapBottomY
        then [elem1Data.centerCoords] else [])
    ++ (if overlapLeftX ≤ elem2Data.centerCoords.1 ∧ elem2Data.centerCoords.1 ≤ overlapRightX
          ∧ overlapTopY ≤ elem2Data.centerCoords.2 ∧ elem2Data.centerCoords.2 ≤ overlapBottomY
        then [elem2Data.centerCoords] else [])

/-- Per-point classification of `judgeOverlappingElementsForForeground`'s
loop body (lines 853-874): which of the two elements gets credited as
foreground at one query point.  The hit test always runs against the
top-level document (no search context).  Reference equality with the hit
result is id equality; the both-contain tie is broken by crediting the
element that does not contain the other. -/
def pointCredit (env : DomEnv) (elem1 elem2 : Elem) (queryPoint : ℚ × ℚ) : Nat × Nat :=
  let foregroundElemAtQueryPoint := env.elementFromPoint none queryPoint.1 queryPoint.2
  let inElem1 := containsId elem1 foregroundElemAtQueryPoint
  let inElem2 := containsId elem2 foregroundElemAtQueryPoint
  if inElem1 = true ∧ inElem2 = false then (1, 0)
  else if inElem2 = true ∧ inElem1 = false then (0, 1)
  else if inElem1 = true ∧ inElem2 = true then
    if foregroundElemAtQueryPoint = some elem1.core.id then (1, 0)
    else if foregroundElemAtQueryPoint = some elem2.core.id then (0, 1)
    else if containsId elem1 (some elem2.core.id) = true then (0, 1) else (1, 0)
  else (0, 0)

/-- The two foreground counters accumulated over the query points
(`numPointsWhereElem1IsForeground`, `numPointsWhereElem2IsForeground`). -/
def foregroundCounts (env : DomEnv) (elem1 elem2 : Elem) (queryPoints : List (ℚ × ℚ)) :
    Nat × Nat :=
  ((queryPoints.map (fun p => (pointCredit env elem1 elem2 p).1)).sum,
   (queryPoints.map (fun p => (pointCredit env elem1 elem2 p).2)).sum)

/-- Source: `BrowserHelper.judgeOverlappingElementsForForeground` (lines
848-883): 0 with no query points, otherwise the five-way comparison of the
two foreground counters. -/
def judgeOverlappingElementsForForeground (env : DomEnv)
    (elem1Data elem2Data : ElementData) : Int :=
  let queryPoints := findQueryPointsInOverlap elem1Data elem2Data
  if queryPoints = [] then 0
  else
    let counts := foregroundCounts env elem1Data.element elem2Data.element queryPoints
    if counts.2 < counts.1 then (if counts.2 = 0 then 2 else 1)
    else if counts.1 < counts.2 then (if counts.1 = 0 then -2 else -1)
    else 0

/-- Separation hypothesis for two distinct elements of a tree-shaped layout:
one's subtree contains the other but not conversely, or the two subtrees are
disjoint.  Any two distinct nodes of a well-formed (unique-id) document tree
satisfy this. -/
def TreeSeparated (a b : Elem) : Bool :=
  (containsId a (some b.core.id) && !containsId b (some a.core.id))
  || (containsId b (some a.core.id) && !containsId a (some b.core.id))
  || (subtreeIds a).all (fun n => !(decide (n ∈ subtreeIds b)))

/-- The JavaScript `Set` insertion of the discovery loop: insertion-ordered,
deduplicating by reference identity (modelled as id equality). -/
def setInsert (resultSet : List Elem) (element : Elem) : List Elem :=
  if element.core.id ∈ resultSet.map (fun e => e.core.id) then resultSet
  else resultSet ++ [element]

theorem sizeOf_mem_iframeNodeList_toList :
    ∀ {l : IframeNodeList} {c : IframeNode}, c ∈ l.toList → sizeOf c < sizeOf l
  | .nil, c, h => by simp [IframeNodeList.toList] at h
  | .cons hd t, c, h => by
    rcases (by simpa [IframeNodeList.toList] using h : c = hd ∨ c ∈ t.toList) with h | h
    · subst h; simp; omega
    · have := sizeOf_mem_iframeNodeList_toList (l := t) h
      simp; omega

theorem sizeOf_children_lt (node : IframeNode) : sizeOf node.children < sizeOf node := by
  cases node with
  | mk f ox oy c ch => simp [IframeNode.children]

mutual
theorem sizeOf_mem_elemScopeAll : ∀ {e x : Elem}, x ∈ elemScopeAll e → sizeOf x ≤ sizeOf e
  | .mk core children sh, x, h => by
    rcases (by simpa [elemScopeAll] using h :
        x = Elem.mk core children sh ∨ x ∈ elemListScopeAll children) with h | h
    · subst h; omega
    · have := sizeOf_mem_elemListScopeAll (l := children) h
      simp; omega
theorem sizeOf_mem_elemListScopeAll : ∀ {l : ElemList} {x : Elem},
    x ∈ elemListScopeAll l → sizeOf x < sizeOf l
  | .nil, x, h => by simp [elemListScopeAll] at h
  | .cons e tl, x, h => by
    rcases (by simpa [elemListScopeAll] using h :
        x ∈ elemScopeAll e ∨ x ∈ elemListScopeAll tl) with h | h
    · have := sizeOf_mem_elemScopeAll (e := e) h
      simp; omega
    · have := sizeOf_mem_elemListScopeAll (l := tl) h
      simp; omega
end

theorem sizeOf_shadowChildren_le (e : Elem) : sizeOf e.shadowChildren < sizeOf e := by
  cases e with
  | mk core children sh => simp [Elem.shadowChildren]

/-- The shadow scopes the discovery helper recurses into (lines 596-599): the
possible shadow-root hosts are the cached main-document list when provided,
else every element of the current scope; hidden hosts are filtered out first
when hidden elements are ignored; without a cache the hosts are narrowed to
those actually hosting a shadow root (the source's `filter(Boolean)` on the
mapped `shadowRoot` references). -/
def shadowScopesFrom (env : DomEnv) (root : ElemList) (iframeContextNode : IframeNode)
    (cachedShadowRootHostChildren : Option (List Elem)) (shouldIgnoreHidden : Bool) :
    List ElemList :=
  let possibleShadowRootHosts0 :=
    match cachedShadowRootHostChildren with
    | some cachedHosts => cachedHosts
    | none => elemListScopeAll root
  let possibleShadowRootHosts :=
    if shouldIgnoreHidden = true
    then possibleShadowRootHosts0.filter
        (fun e => calcIsHidden env e iframeContextNode true = false)
    else possibleShadowRootHosts0
  match cachedShadowRootHostChildren with
  | some _ => possibleShadowRootHosts.map (fun e => e.shadowChildren)
  | none => ((possibleShadowRootHosts.filter (fun e => e.core.hasShadowRoot = true)).map
      (fun e => e.shadowChildren))

theorem sizeOf_mem_shadowScopesFrom {env : DomEnv} {root : ElemList}
    {iframeContextNode : IframeNode} {shouldIgnoreHidden : Bool} {s : ElemList}
    (h : s ∈ shadowScopesFrom env root iframeContextNode none shouldIgnoreHidden) :
    sizeOf s < sizeOf root := by
  simp only [shadowScopesFrom, List.mem_map] at h
  obtain ⟨e, he, hs⟩ := h
  subst hs
  have he2 : e ∈ elemListScopeAll root := by
    have he1 := (List.mem_filter.mp he).1
    split at he1
    · exact (List.mem_filter.mp he1).1
    · exact he1
  have h1 := sizeOf_mem_elemListScopeAll (l := root) he2
  have h2 := sizeOf_shadowChildren_le e
  omega

/-- Source: `BrowserHelper.enhancedQuerySelectorAllHelper` (lines 581-669).
Result order follows the source's flattened result arrays: the recursive
results from child iframes (each element's `documentHostChain` extended with
the embedding iframe element), then the recursive results from shadow roots,
then the current scope's results (the selector matches and the
onclick-property elements, accepted by the filter and the hidden check, in
JavaScript `Set` insertion order).  An inaccessible child iframe contributes
nothing: `getIframeContent` returns `none` and the branch is skipped, so no
failure escapes (the model is a total function).  Logging-only code is
dropped. -/
def enhancedQuerySelectorAllHelper (env : DomEnv) (cssSelectors : List String)
    (root : ElemList) (iframeContextNode : IframeNode)
    (elemFilter : Elem → IframeNode → Bool)
    (cachedShadowRootHostChildren : Option (List Elem))
    (shouldIgnoreHidden : Bool) : List HostedElem :=
  let iframeResults :=
    iframeContextNode.children.toList.attach.flatMap (fun childIframeNode =>
      match childIframeNode.1.iframe with
      | none => []
      | some childIframeElem =>
        if shouldIgnoreHidden = true
            ∧ calcIsHidden env childIframeElem iframeContextNode true = true then []
        else
          match getIframeContent childIframeElem childIframeNode.1.content with
          | none => []
          | some iframeContent =>
            (enhancedQuerySelectorAllHelper env cssSelectors iframeContent childIframeNode.1
                elemFilter none shouldIgnoreHidden).map
              (fun hosted =>
                { hosted with documentHostChain := hosted.documentHostChain ++ [childIframeElem] }))
  let shadowResults :=
    (shadowScopesFrom env root iframeContextNode cachedShadowRootHostChildren
        shouldIgnoreHidden).attach.flatMap
      (fun childShadowRoot =>
        enhancedQuerySelectorAllHelper env cssSelectors childShadowRoot.1 iframeContextNode
          elemFilter none shouldIgnoreHidden)
  let selectorCandidates :=
    cssSelectors.flatMap (fun selector =>
      (fetchElementsByCss selector root).filter (fun e => elemFilter e iframeContextNode))
  let clickableElementsBasedOnProperty :=
    ((elemListScopeAll root).filter (fun e => e.core.onclick = true)).filter
      (fun e => elemFilter e iframeContextNode)
  let currScopeResults :=
    (selectorCandidates ++ clickableElementsBasedOnProperty).foldl
      (fun acc e =>
        if shouldIgnoreHidden = false ∨ calcIsHidden env e iframeContextNode false = false
        then setInsert acc e else acc) []
  iframeResults ++ shadowResults
    ++ currScopeResults.map (fun e => { elem := e, documentHostChain := [] })
termination_by
  (sizeOf iframeContextNode,
   (match cachedShadowRootHostChildren with | some _ => 1 | none => 0),
   sizeOf root)
decreasing_by
  · apply Prod.Lex.left
    have h1 := sizeOf_mem_iframeNodeList_toList childIframeNode.2
    have h2 := sizeOf_children_lt iframeContextNode
    omega
  · rcases cachedShadowRootHostChildren with _ | cachedHosts
    · apply Prod.Lex.right
      apply Prod.Lex.right
      exact sizeOf_mem_shadowScopesFrom childShadowRoot.2
    · apply Prod.Lex.right
      apply Prod.Lex.left
      exact Nat.zero_lt_one

/-- Source: `BrowserHelper.initializeCacheOfShadowRootHostChildrenOfMainDoc`
(lines 63-69): all elements of the main document that host a shadow root. -/
def initializeCacheOfShadowRootHostChildrenOfMainDoc (mainDoc : ElemList) : List Elem :=
  (elemListScopeAll mainDoc).filter (fun e => e.core.hasShadowRoot = true)

/-- Source: `BrowserHelper.enhancedQuerySelectorAll` (lines 567-579): runs the
helper on the top document and the iframe-tree root, with the freshly built
(or cached) list of shadow-root hosts of the main document. -/
def enhancedQuerySelectorAll (env : DomEnv) (cssSelectors : List String)
    (mainDoc : ElemList) (iframeTreeRoot : IframeNode)
    (elemFilter : Elem → IframeNode → Bool) (shouldIgnoreHidden : Bool) : List HostedElem :=
  enhancedQuerySelectorAllHelper env cssSelectors mainDoc iframeTreeRoot elemFilter
    (some (initializeCacheOfShadowRootHostChildrenOfMainDoc mainDoc)) shouldIgnoreHidden

mutual
/-- Ids of an element and everything below it, shadow scopes included (used
to bound what discovery can ever report from a scope). -/
def elemDeepIds : Elem → List Nat
  | .mk core children sh => core.id :: (elemListDeepIds children ++ elemListDeepIds sh)
def elemListDeepIds : ElemList → List Nat
  | .nil => []
  | .cons e tl => elemDeepIds e ++ elemListDeepIds tl
end

/-- Ids reachable through the iframe tree's accessible children only: an
inaccessible iframe (and everything below it) contributes nothing. -/
def accessibleChildIds : IframeNodeList → List Nat
  | .nil => []
  | .cons (.mk iframeOpt _ _ content kids) tl =>
    (match iframeOpt with
     | none => []
     | some f =>
       if f.core.iframeContentAccessible = true
       then elemListDeepIds content ++ accessibleChildIds kids
       else [])
    ++ accessibleChildIds tl

/-- Everything one discovery call may report: the current scope's ids (shadow
scopes included), the cached shadow-root hosts' ids when a cache is passed,
and the ids reachable through accessible child iframes.  By construction the
contents of inaccessible iframes never occur here. -/
def reachableIds (root : ElemList) (iframeContextNode : IframeNode)
    (cachedShadowRootHostChildren : Option (List Elem)) : List Nat :=
  elemListDeepIds root
    ++ (match cachedShadowRootHostChildren with
        | some cachedHosts => cachedHosts.flatMap elemDeepIds
        | none => [])
    ++ accessibleChildIds iframeContextNode.children

/-!
Concrete instances used by the witness and counterexample theorems below.
The hit-testing oracles ignore the query point, so evaluating these
instances never needs rational arithmetic beyond literal comparisons.
-/

def witnessStyle : CompStyle :=
  { display := "block", visibility := "visible", width := "10px", height := "10px",
    opacity := "1" }

def topIframeNode : IframeNode := .mk none 0 0 .nil .nil

def c6SelectElem : Elem :=
  .mk { id := 1, tag := "select", hidden := false, roleAttr := none, typeAttr := none,
        selectors := ["select"], onclick := false, hasShadowRoot := false,
        iframeContentAccessible := false, style := witnessStyle,
        rect := { x := 0, y := 0, w := 10, h := 10 } } .nil .nil

def c6Env : DomEnv :=
  { viewportWidth := 100, viewportHeight := 100,
    elementFromPoint := fun _ _ _ => some 99,
    describe := fun _ => none, fullXpathOf := fun _ => "" }

def c7DivElem : Elem :=
  .mk { id := 1, tag := "div", hidden := false, roleAttr := none, typeAttr := none,
        selectors := [], onclick := true, hasShadowRoot := false,
        iframeContentAccessible := false, style := witnessStyle,
        rect := { x := 0, y := 0, w := 10, h := 10 } } .nil .nil

def c1VisibleChild : Elem :=
  .mk { id := 2, tag := "span", hidden := false, roleAttr := none, typeAttr := none,
        selectors := [], onclick := false, hasShadowRoot := false,
        iframeContentAccessible := false,
        style := { display := "block", visibility := "visible", width := "5px",
                   height := "5px", opacity := "1" },
        rect := { x := 200, y := 0, w := 5, h := 5 } } .nil .nil

def c1HiddenInlineElem : Elem :=
  .mk { id := 1, tag := "a", hidden := true, roleAttr := none, typeAttr := none,
        selectors := ["a"], onclick := false, hasShadowRoot := false,
        iframeContentAccessible := false,
        style := { display := "inline", visibility := "visible", width := "0px",
                   height := "0px", opacity := "1" },
        rect := { x := 0, y := 0, w := 0, h := 0 } } (.cons c1VisibleChild .nil) .nil

def c1DisplayNoneElem : Elem :=
  .mk { id := 3, tag := "div", hidden := false, roleAttr := none, typeAttr := none,
        selectors := [], onclick := false, hasShadowRoot := false,
        iframeContentAccessible := false,
        style := { display := "none", visibility := "visible", width := "10px",
                   height := "10px", opacity := "1" },
        rect := { x := 0, y := 0, w := 10, h := 10 } } .nil .nil

def c5BoxElem1 : Elem :=
  .mk { id := 1, tag := "div", hidden := false, roleAttr := none, typeAttr := none,
        selectors := [], onclick := true, hasShadowRoot := false,
        iframeContentAccessible := false, style := witnessStyle,
        rect := { x := 0, y := 0, w := 10, h := 10 } } .nil .nil

def c5BoxElem2 : Elem :=
  .mk { id := 2, tag := "div", hidden := false, roleAttr := none, typeAttr := none,
        selectors := [], onclick := true, hasShadowRoot := false,
        iframeContentAccessible := false, style := witnessStyle,
        rect := { x := 0, y := 0, w := 10, h := 10 } } .nil .nil

def c5Desc1 : ElementData :=
  { centerCoords := (5, 5), description := "d1", tagHead := "div", boundingBoxTLx := 0,
    boundingBoxTLy := 0, boundingBoxBRx := 10, boundingBoxBRy := 10, width := 10,
    height := 10, tagName := "div", xpath := "", interactivesIndex := none,
    element := c5BoxElem1 }

def c5Desc2 : ElementData :=
  { centerCoords := (5, 5), description := "d2", tagHead := "div", boundingBoxTLx := 0,
    boundingBoxTLy := 0, boundingBoxBRx := 10, boundingBoxBRy := 10, width := 10,
    height := 10, tagName := "div", xpath := "", interactivesIndex := none,
    element := c5BoxElem2 }

def c5BlankEnv : DomEnv :=
  { viewportWidth := 100, viewportHeight := 100,
    elementFromPoint := fun _ _ _ => none,
    describe := fun _ => none, fullXpathOf := fun _ => "" }

def c4SelfElem : Elem :=
  .mk { id := 1, tag := "div", hidden := false, roleAttr := none, typeAttr := none,
        selectors := [], onclick := true, hasShadowRoot := false,
        iframeContentAccessible := false, style := witnessStyle,
        rect := { x := 0, y := 0, w := 10, h := 10 } } .nil .nil

def c4SelfDesc : ElementData :=
  { centerCoords := (5, 5), description := "self", tagHead := "div", boundingBoxTLx := 0,
    boundingBoxTLy := 0, boundingBoxBRx := 10, boundingBoxBRy := 10, width := 10,
    height := 10, tagName := "div", xpath := "", interactivesIndex := none,
    element := c4SelfElem }

def c4SelfEnv : DomEnv :=
  { viewportWidth := 100, viewportHeight := 100,
    elementFromPoint := fun _ _ _ => some 1,
    describe := fun _ => none, fullXpathOf := fun _ => "" }

def c4LeftElem : Elem :=
  .mk { id := 11, tag := "div", hidden := false, roleAttr := none, typeAttr := none,
        selectors := [], onclick := true, hasShadowRoot := false,
        iframeContentAccessible := false, style := witnessStyle,
        rect := { x := 0, y := 0, w := 10, h := 10 } } .nil .nil

def c4RightElem : Elem :=
  .mk { id := 12, tag := "div", hidden := false, roleAttr := none, typeAttr := none,
        selectors := [], onclick := true, hasShadowRoot := false,
        iframeContentAccessible := false, style := witnessStyle,
        rect := { x := 5, y := 0, w := 10, h := 10 } } .nil .nil

def c4LeftDesc : ElementData :=
  { centerCoords := (5, 5), description := "left", tagHead := "div", boundingBoxTLx := 0,
    boundingBoxTLy := 0, boundingBoxBRx := 10, boundingBoxBRy := 10, width := 10,
    height := 10, tagName := "div", xpath := "", interactivesIndex := none,
    element := c4LeftElem }

def c4RightDesc : ElementData :=
  { centerCoords := (10, 5), description := "right", tagHead := "div", boundingBoxTLx := 5,
    boundingBoxTLy := 0, boundingBoxBRx := 15, boundingBoxBRy := 10, width := 10,
    height := 10, tagName := "div", xpath := "", interactivesIndex := none,
    element := c4RightElem }

theorem foldl_add_eq_add_sum {α : Type} (f : α → ℚ) :
    ∀ (l : List α) (init : ℚ), l.foldl (fun acc x => acc + f x) init = init + (l.map f).sum
  | [], init => by simp
  | x :: tl, init => by
    rw [List.foldl_cons, foldl_add_eq_add_sum f tl (init + f x)]
    simp [add_assoc]

theorem buriedQueryLoop_eq_not_any (env : DomEnv) (element : Elem) (ctx : Option Nat) :
    ∀ pts : List (ℚ × ℚ),
      buriedQueryLoop env element ctx pts
        = !(pts.any (fun p => containsId element (env.elementFromPoint ctx p.1 p.2)))
  | [] => by simp [buriedQueryLoop]
  | p :: rest => by
    rw [buriedQueryLoop, List.any_cons, buriedQueryLoop_eq_not_any env element ctx rest]
    by_cases hc : containsId element (env.elementFromPoint ctx p.1 p.2) = true
    · simp [hc]
    · simp [hc]
    termination_by pts => pts.length

/-- C9: makeElementDataSerializable removes the raw element-handle field from
an element descriptor before it crosses a serialization boundary (its result
type has no handle field, and the result does not depend on the handle), and
leaves every other field of the descriptor unchanged. -/
theorem makeElementDataSerializable_strips_only_element (elementData : ElementData) :
    (makeElementDataSerializable elementData).centerCoords = elementData.centerCoords
    ∧ (makeElementDataSerializable elementData).description = elementData.description
    ∧ (makeElementDataSerializable elementData).tagHead = elementData.tagHead
    ∧ (makeElementDataSerializable elementData).boundingBoxTLx = elementData.boundingBoxTLx
    ∧ (makeElementDataSerializable elementData).boundingBoxTLy = elementData.boundingBoxTLy
    ∧ (makeElementDataSerializable elementData).boundingBoxBRx = elementData.boundingBoxBRx
    ∧ (makeElementDataSerializable elementData).boundingBoxBRy = elementData.boundingBoxBRy
    ∧ (makeElementDataSerializable elementData).width = elementData.width
    ∧ (makeElementDataSerializable elementData).height = elementData.height
    ∧ (makeElementDataSerializable elementData).tagName = elementData.tagName
    ∧ (makeElementDataSerializable elementData).xpath = elementData.xpath
    ∧ (makeElementDataSerializable elementData).interactivesIndex = elementData.interactivesIndex
    ∧ ∀ other : Elem,
        makeElementDataSerializable { elementData with element := other }
          = makeElementDataSerializable elementData :=
  ⟨rfl, rfl, rfl, rfl, rfl, rfl, rfl, rfl, rfl, rfl, rfl, rfl, fun _ => rfl⟩

/-- C8: for an element whose ancestry crosses no shadow-root boundary and no
iframe boundary (empty recorded iframe path), getFullXpath returns exactly
the plain structural xpath produced by the library call, with no
shadow-boundary marker and no iframe or corrupted-node segment prepended. -/
theorem getFullXpath_plain (e : XpathElem)
    (hs : e.shadowHost = XpathShadowHost.notInShadow)
    (hp : e.iframePath = XpathIframePath.nil) :
    getFullXpath e = e.libXpath := by
  cases e with
  | mk lib sh path =>
    simp only [XpathElem.shadowHost] at hs
    simp only [XpathElem.iframePath] at hp
    subst hs; subst hp
    rw [getFullXpath]
    simp [prependIframeSegments, getFullXpathHelper, XpathElem.libXpath]

/-- C8 (witness): the plain-path theorem applied to a concrete element with
no shadow host and an empty iframe path. -/
theorem getFullXpath_plain_witness :
    (XpathElem.mk "/html/body/div[2]" .notInShadow .nil).shadowHost = .notInShadow
    ∧ (XpathElem.mk "/html/body/div[2]" .notInShadow .nil).iframePath = .nil
    ∧ getFullXpath (XpathElem.mk "/html/body/div[2]" .notInShadow .nil)
        = (XpathElem.mk "/html/body/div[2]" .notInShadow .nil).libXpath :=
  ⟨rfl, rfl, getFullXpath_plain _ rfl rfl⟩

/-- C3: getElementData computes the absolute bounding-box origin as the
element's local bounding-rectangle origin plus the sum of the local
bounding-rectangle origins of the recorded document-host chain (the iframe
embedding elements crossed on the path to the top document; shadow-root
crossings never enter the chain and so contribute no offset), and the center
point is that absolute origin plus half the element's width and height (the
bottom-right corner likewise being the origin plus width and height). -/
theorem getElementData_compositional (env : DomEnv) (hostedElem : HostedElem) :
    (getElementData env hostedElem).boundingBoxTLx
      = hostedElem.elem.core.rect.x
        + (hostedElem.documentHostChain.map (fun host => host.core.rect.x)).sum
    ∧ (getElementData env hostedElem).boundingBoxTLy
      = hostedElem.elem.core.rect.y
        + (hostedElem.documentHostChain.map (fun host => host.core.rect.y)).sum
    ∧ (getElementData env hostedElem).centerCoords
      = ((getElementData env hostedElem).boundingBoxTLx + hostedElem.elem.core.rect.w / 2,
         (getElementData env hostedElem).boundingBoxTLy + hostedElem.elem.core.rect.h / 2)
    ∧ (getElementData env hostedElem).boundingBoxBRx
      = (getElementData env hostedElem).boundingBoxTLx + hostedElem.elem.core.rect.w
    ∧ (getElementData env hostedElem).boundingBoxBRy
      = (getElementData env hostedElem).boundingBoxTLy + hostedElem.elem.core.rect.h := by
  refine ⟨?_, ?_, rfl, rfl, rfl⟩
  · simp only [getElementData]
    exact foldl_add_eq_add_sum _ _ _
  · simp only [getElementData]
    exact foldl_add_eq_add_sum _ _ _

/-- C6: the occlusion test isBuriedInBackground returns false, never
classifying the element as occluded, for every element whose bounding box
has zero width or zero height, for every select element, and for every input
element of type checkbox, regardless of what the hit-testing oracle reports
anywhere. -/
theorem isBuriedInBackground_exempt (env : DomEnv) (element : Elem) (iframeNode : IframeNode)
    (h : element.core.rect.w = 0 ∨ element.core.rect.h = 0 ∨ element.core.tag = "select"
      ∨ (isInputElement element = true ∧ inputTypeProp element = "checkbox")) :
    isBuriedInBackground env element iframeNode = false := by
  rw [isBuriedInBackground]
  by_cases h0 : element.core.rect.w = 0 ∨ element.core.rect.h = 0
  · rw [if_pos h0]
  · rw [if_neg h0]
    rcases h with h | h | h | h
    · exact absurd (Or.inl h) h0
    · exact absurd (Or.inr h) h0
    · rw [if_pos (Or.inl h)]
    · rw [if_pos (Or.inr h)]

/-- C6 (witness): the exemption theorem applied to a concrete select
element with a non-degenerate box, under an oracle that never reports it as
topmost. -/
theorem isBuriedInBackground_exempt_witness :
    (c6SelectElem.core.rect.w = 0 ∨ c6SelectElem.core.rect.h = 0
      ∨ c6SelectElem.core.tag = "select"
      ∨ (isInputElement c6SelectElem = true ∧ inputTypeProp c6SelectElem = "checkbox"))
    ∧ isBuriedInBackground c6Env c6SelectElem topIframeNode = false :=
  ⟨Or.inr (Or.inr (Or.inl rfl)),
   isBuriedInBackground_exempt c6Env c6SelectElem topIframeNode
     (Or.inr (Or.inr (Or.inl rfl)))⟩

/-- C7: for every element with a non-degenerate bounding box that is not
exempt (not a select element nor a checkbox input), the occlusion test
classifies it occluded exactly when at none of the five sampled points (the
four corners inset by one unit plus the center) the element contains - is an
ancestor-or-self of - the topmost element the hit-testing oracle reports
there (the oracle being queried in the element's own frame context); being
foreground at any single sampled point makes it not occluded. -/
theorem isBuriedInBackground_iff_never_foreground (env : DomEnv) (element : Elem)
    (iframeNode : IframeNode)
    (hw : ¬element.core.rect.w = 0) (hh : ¬element.core.rect.h = 0)
    (hsel : ¬element.core.tag = "select")
    (hcb : ¬(isInputElement element = true ∧ inputTypeProp element = "checkbox")) :
    isBuriedInBackground env element iframeNode
      = !((occlusionQueryPoints element.core.rect).any
          (fun p => containsId element
            (env.elementFromPoint (searchContextFor iframeNode) p.1 p.2))) := by
  rw [isBuriedInBackground]
  rw [if_neg (by tauto : ¬(element.core.rect.w = 0 ∨ element.core.rect.h = 0))]
  rw [if_neg (by tauto :
      ¬(element.core.tag = "select"
        ∨ (isInputElement element = true ∧ inputTypeProp element = "checkbox")))]
  exact buriedQueryLoop_eq_not_any env element (searchContextFor iframeNode)
    (occlusionQueryPoints element.core.rect)

/-- C7 (witness): the occlusion characterization applied to a concrete
non-exempt div with a 10 by 10 box. -/
theorem isBuriedInBackground_iff_never_foreground_witness :
    (¬c7DivElem.core.rect.w = 0 ∧ ¬c7DivElem.core.rect.h = 0
      ∧ ¬c7DivElem.core.tag = "select"
      ∧ ¬(isInputElement c7DivElem = true ∧ inputTypeProp c7DivElem = "checkbox"))
    ∧ isBuriedInBackground c6Env c7DivElem topIframeNode
      = !((occlusionQueryPoints c7DivElem.core.rect).any
          (fun p => containsId c7DivElem
            (c6Env.elementFromPoint (searchContextFor topIframeNode) p.1 p.2))) := by
  refine ⟨⟨?_, ?_, ?_, ?_⟩, ?_⟩
  · show ¬(10 : ℚ) = 0
    norm_num
  · show ¬(10 : ℚ) = 0
    norm_num
  · decide
  · decide
  · exact isBuriedInBackground_iff_never_foreground c6Env c7DivElem topIframeNode
      (by show ¬(10 : ℚ) = 0; norm_num) (by show ¬(10 : ℚ) = 0; norm_num)
      (by decide) (by decide)

/-- C10: formatChoices fails immediately and loudly (throws, modelled as
`Except.error`) exactly when some candidate id is out of range - negative or
at least the length of the elements list; with every candidate id in range
it returns one pair per candidate id (same length, the first component of
the k-th pair being the k-th candidate id rendered as a string) without
raising. -/
theorem formatChoices_out_of_range_iff (elements : List StrTriple) (candidateIds : List Int) :
    ((∃ msg, formatChoices elements candidateIds = Except.error msg)
      ↔ ∃ id ∈ candidateIds, id < 0 ∨ (elements.length : Int) ≤ id)
    ∧ ∀ l, formatChoices elements candidateIds = Except.ok l →
        l.length = candidateIds.length
        ∧ l.map Prod.fst = candidateIds.map (fun id => toString id) := by
  by_cases hbad :
      candidateIds.filter (fun id => decide (id < 0 ∨ (elements.length : Int) ≤ id)) = []
  · constructor
    · constructor
      · rintro ⟨msg, h⟩
        rw [formatChoices, if_pos hbad] at h
        cases h
      · rintro ⟨id, hmem, hid⟩
        exfalso
        have hin : id ∈ candidateIds.filter
            (fun id => decide (id < 0 ∨ (elements.length : Int) ≤ id)) :=
          List.mem_filter.mpr ⟨hmem, by simpa using hid⟩
        rw [hbad] at hin
        simp at hin
    · intro l hl
      rw [formatChoices, if_pos hbad] at hl
      have hl2 := Except.ok.inj hl
      subst hl2
      refine ⟨by simp, ?_⟩
      rw [List.map_map]
      rfl
  · constructor
    · constructor
      · intro _
        obtain ⟨id, hid⟩ := List.exists_mem_of_ne_nil _ hbad
        have hm := List.mem_filter.mp hid
        exact ⟨id, hm.1, by simpa using hm.2⟩
      · intro _
        exact ⟨_, by rw [formatChoices, if_neg hbad]⟩
    · intro l hl
      rw [formatChoices, if_neg hbad] at hl
      cases hl

/-- C10 (witness): the error characterization applied to a concrete
one-element list with the out-of-range candidate id -1, and the ok branch
at the in-range candidate id 0. -/
theorem formatChoices_out_of_range_iff_witness :
    (∃ id ∈ ([-1] : List Int), id < 0
        ∨ ((([("some description", "div", "div")] : List StrTriple)).length : Int) ≤ id)
    ∧ (∃ msg, formatChoices [("some description", "div", "div")] [-1] = Except.error msg)
    ∧ (formatChoices [("some description", "div", "div")] [(0 : Int)]).isOk = true := by
  refine ⟨⟨-1, by simp, Or.inl (by norm_num)⟩,
    (formatChoices_out_of_range_iff [("some description", "div", "div")] [-1]).1.mpr
      ⟨-1, by simp, Or.inl (by norm_num)⟩, ?_⟩
  rcases hfc : formatChoices [("some description", "div", "div")] [(0 : Int)] with msg | l
  · exfalso
    obtain ⟨id, hid, hrange⟩ :=
      (formatChoices_out_of_range_iff [("some description", "div", "div")] [0]).1.mp
        ⟨msg, hfc⟩
    simp at hid
    subst hid
    rcases hrange with h | h
    · omega
    · norm_num at h
  · rfl

/-- C1 (counterexample): the claim that calcIsHidden returns true for every
element with the hidden attribute or display:none regardless of whether it
has visible children fails: this concrete element carries the hidden
attribute, has computed display `inline`, and has one visible child, so the
inline-display override (source lines 400-408) reclassifies it visible and
calcIsHidden returns false. -/
theorem calcIsHidden_hidden_attr_counterexample :
    c1HiddenInlineElem.core.hidden = true
    ∧ calcIsHidden c6Env c1HiddenInlineElem topIframeNode false = false := by
  constructor
  · rfl
  · simp only [c1HiddenInlineElem, c1VisibleChild]
    simp [calcIsHidden, hasVisibleChild, Elem.core, Elem.children, isFullyOutsideViewport,
      topIframeNode, IframeNode.offsetX, IframeNode.offsetY, c6Env, hasInlineDisplay,
      charsContainSeg, charsStartWith]
    norm_num [calcIsHidden, hasVisibleChild, Elem.core, Elem.children, isFullyOutsideViewport,
      topIframeNode, IframeNode.offsetX, IframeNode.offsetY, c6Env, hasInlineDisplay,
      charsContainSeg, charsStartWith]

/-- C1 (amended): for every element carrying the explicit hidden attribute or
with computed style display:none, calcIsHidden ignores the element's own
geometry and occlusion status, but the inline-display override still
applies: the result is true unless the computed display contains "inline"
and some child is recursively classified visible, in which case it is
false.  In particular, for display:none (which never contains "inline") the
result is unconditionally true. -/
theorem calcIsHidden_explicit_hidden (env : DomEnv) (element : Elem)
    (iframeNode : IframeNode) (isDocHostElem : Bool)
    (h : element.core.hidden = true ∨ element.core.style.display = "none") :
    calcIsHidden env element iframeNode isDocHostElem
      = !(hasInlineDisplay element.core.style.display
          && hasVisibleChild env element.children iframeNode)
    ∧ (element.core.style.display = "none" →
        calcIsHidden env element iframeNode isDocHostElem = true) := by
  cases element with
  | mk core children sh =>
    simp only [Elem.core] at h
    have hmain : calcIsHidden env (.mk core children sh) iframeNode isDocHostElem
        = !(hasInlineDisplay core.style.display && hasVisibleChild env children iframeNode) := by
      rw [calcIsHidden]
      have hinv1 : core.hidden = true ∨ core.style.display = "none"
          ∨ core.style.visibility = "hidden" := by tauto
      by_cases hinl : hasInlineDisplay core.style.display = true
      · by_cases hvis : hasVisibleChild env children iframeNode = true
        · simp [hinv1, hinl, hvis]
        · have hv : hasVisibleChild env children iframeNode = false := by simpa using hvis
          simp [hinv1, hinl, hv]
      · have hi : hasInlineDisplay core.style.display = false := by simpa using hinl
        simp [hinv1, hi]
    refine ⟨hmain, fun hd => ?_⟩
    rw [hmain]
    simp only [Elem.core, Elem.children] at hd ⊢
    rw [hd]
    have : hasInlineDisplay "none" = false := by decide
    simp [this]

/-- C1 (witness): the amended theorem applied to a concrete display:none
element, its hypothesis discharged there. -/
theorem calcIsHidden_explicit_hidden_witness :
    (c1DisplayNoneElem.core.hidden = true ∨ c1DisplayNoneElem.core.style.display = "none")
    ∧ calcIsHidden c6Env c1DisplayNoneElem topIframeNode false
        = !(hasInlineDisplay c1DisplayNoneElem.core.style.display
            && hasVisibleChild c6Env c1DisplayNoneElem.children topIframeNode)
    ∧ calcIsHidden c6Env c1DisplayNoneElem topIframeNode false = true :=
  ⟨Or.inr rfl,
   (calcIsHidden_explicit_hidden c6Env c1DisplayNoneElem topIframeNode false (Or.inr rfl)).1,
   (calcIsHidden_explicit_hidden c6Env c1DisplayNoneElem topIframeNode false (Or.inr rfl)).2
     rfl⟩

/-- C5: judgeOverlappingElementsForForeground returns 0 whenever the
rectangular intersection of the two descriptors' bounding boxes is empty (no
sample points); otherwise, with c1 and c2 the counts of sampled points where
element 1 respectively element 2 is classified foreground, it returns 2 iff
c1 > 0 and c2 = 0, 1 iff c1 > c2 and c2 > 0, 0 iff c1 = c2, and
symmetrically -1 and -2 with the roles swapped. -/
theorem judgeOverlapping_five_way (env : DomEnv) (elem1Data elem2Data : ElementData)
    (c1 c2 : Nat)
    (hc : foregroundCounts env elem1Data.element elem2Data.element
        (findQueryPointsInOverlap elem1Data elem2Data) = (c1, c2)) :
    (findQueryPointsInOverlap elem1Data elem2Data = [] →
      judgeOverlappingElementsForForeground env elem1Data elem2Data = 0)
    ∧ (findQueryPointsInOverlap elem1Data elem2Data ≠ [] →
      ((judgeOverlappingElementsForForeground env elem1Data elem2Data = 2
          ↔ 0 < c1 ∧ c2 = 0)
        ∧ (judgeOverlappingElementsForForeground env elem1Data elem2Data = 1
          ↔ c2 < c1 ∧ 0 < c2)
        ∧ (judgeOverlappingElementsForForeground env elem1Data elem2Data = 0
          ↔ c1 = c2)
        ∧ (judgeOverlappingElementsForForeground env elem1Data elem2Data = -1
          ↔ c1 < c2 ∧ 0 < c1)
        ∧ (judgeOverlappingElementsForForeground env elem1Data elem2Data = -2
          ↔ 0 < c2 ∧ c1 = 0))) := by
  constructor
  · intro hpts
    rw [judgeOverlappingElementsForForeground, if_pos hpts]
  · intro hpts
    have hc1 : (foregroundCounts env elem1Data.element elem2Data.element
        (findQueryPointsInOverlap elem1Data elem2Data)).1 = c1 := by rw [hc]
    have hc2 : (foregroundCounts env elem1Data.element elem2Data.element
        (findQueryPointsInOverlap elem1Data elem2Data)).2 = c2 := by rw [hc]
    rw [judgeOverlappingElementsForForeground, if_neg hpts]
    simp only [hc1, hc2]
    refine ⟨?_, ?_, ?_, ?_, ?_⟩ <;> split_ifs <;> (try simp) <;> omega

/-- C5 (witness): the five-way characterization applied to two concrete
fully-overlapping descriptors under an oracle that reports no topmost
element, so both foreground counts are zero and the judge returns 0. -/
theorem judgeOverlapping_five_way_witness :
    foregroundCounts c5BlankEnv c5Desc1.element c5Desc2.element
        (findQueryPointsInOverlap c5Desc1 c5Desc2) = (0, 0)
    ∧ findQueryPointsInOverlap c5Desc1 c5Desc2 ≠ []
    ∧ judgeOverlappingElementsForForeground c5BlankEnv c5Desc1 c5Desc2 = 0 := by
  have hcredit : ∀ p : ℚ × ℚ,
      pointCredit c5BlankEnv c5Desc1.element c5Desc2.element p = (0, 0) := by
    intro p
    simp [pointCredit, containsId, c5BlankEnv]
  have hc : foregroundCounts c5BlankEnv c5Desc1.element c5Desc2.element
      (findQueryPointsInOverlap c5Desc1 c5Desc2) = (0, 0) := by
    simp [foregroundCounts, hcredit]
  have hne : findQueryPointsInOverlap c5Desc1 c5Desc2 ≠ [] := by
    rw [findQueryPointsInOverlap]
    rw [if_neg ?_]
    · simp
    · simp only [c5Desc1, c5Desc2]
      norm_num
  exact ⟨hc, hne,
    ((((judgeOverlapping_five_way c5BlankEnv c5Desc1 c5Desc2 0 0 hc).2 hne).2.2).1).mpr rfl⟩

theorem subtreeIds_self_mem (e : Elem) : e.core.id ∈ subtreeIds e := by
  cases e with
  | mk core children sh => simp [subtreeIds, Elem.core]

theorem treeSeparated_cases {a b : Elem} (hsep : TreeSeparated a b = true) :
    (b.core.id ∈ subtreeIds a ∧ a.core.id ∉ subtreeIds b)
    ∨ (a.core.id ∈ subtreeIds b ∧ b.core.id ∉ subtreeIds a)
    ∨ ∀ n ∈ subtreeIds a, n ∉ subtreeIds b := by
  simp only [TreeSeparated, containsId, Bool.or_eq_true, Bool.and_eq_true,
    Bool.not_eq_true', decide_eq_true_eq, decide_eq_false_iff_not,
    List.all_eq_true] at hsep
  tauto

theorem pointCredit_swap (env : DomEnv) (a b : Elem)
    (hsep : TreeSeparated a b = true) (p : ℚ × ℚ) :
    pointCredit env a b p = ((pointCredit env b a p).2, (pointCredit env b a p).1) := by
  rcases treeSeparated_cases hsep with ⟨hba, hab⟩ | ⟨hab, hba⟩ | hall
  · have hne : ¬a.core.id = b.core.id := fun h => hab (h.symm ▸ subtreeIds_self_mem b)
    have hne2 : ¬b.core.id = a.core.id := fun h => hne h.symm
    rw [pointCredit, pointCredit]
    cases hhit : env.elementFromPoint none p.1 p.2 with
    | none => simp [containsId]
    | some n =>
      by_cases hna : n ∈ subtreeIds a <;> by_cases hnb : n ∈ subtreeIds b
      · by_cases hn2 : n = b.core.id
        · simp [containsId, hn2, hba, hab, subtreeIds_self_mem b, hne, hne2]
        · have hn1 : ¬n = a.core.id := fun h => hab (h ▸ hnb)
          simp [containsId, hna, hnb, hn1, hn2, hba, hab]
      · simp [containsId, hna, hnb]
      · simp [containsId, hna, hnb]
      · simp [containsId, hna, hnb]
  · have hne : ¬a.core.id = b.core.id := fun h => hba (h ▸ subtreeIds_self_mem a)
    have hne2 : ¬b.core.id = a.core.id := fun h => hne h.symm
    rw [pointCredit, pointCredit]
    cases hhit : env.elementFromPoint none p.1 p.2 with
    | none => simp [containsId]
    | some n =>
      by_cases hna : n ∈ subtreeIds a <;> by_cases hnb : n ∈ subtreeIds b
      · by_cases hn1 : n = a.core.id
        · simp [containsId, hn1, hab, hba, subtreeIds_self_mem a, hne, hne2]
        · have hn2 : ¬n = b.core.id := fun h => hba (h ▸ hna)
          simp [containsId, hna, hnb, hn1, hn2, hab, hba]
      · simp [containsId, hna, hnb]
      · simp [containsId, hna, hnb]
      · simp [containsId, hna, hnb]
  · rw [pointCredit, pointCredit]
    cases hhit : env.elementFromPoint none p.1 p.2 with
    | none => simp [containsId]
    | some n =>
      by_cases hna : n ∈ subtreeIds a <;> by_cases hnb : n ∈ subtreeIds b
      · exact absurd hnb (hall n hna)
      · simp [containsId, hna, hnb]
      · simp [containsId, hna, hnb]
      · simp [containsId, hna, hnb]

theorem findQueryPointsInOverlap_swap_perm (elem1Data elem2Data : ElementData) :
    (findQueryPointsInOverlap elem1Data elem2Data).Perm
      (findQueryPointsInOverlap elem2Data elem1Data) := by
  rw [findQueryPointsInOverlap, findQueryPointsInOverlap]
  rw [max_comm elem2Data.boundingBoxTLx elem1Data.boundingBoxTLx,
    min_comm elem2Data.boundingBoxBRx elem1Data.boundingBoxBRx,
    max_comm elem2Data.boundingBoxTLy elem1Data.boundingBoxTLy,
    min_comm elem2Data.boundingBoxBRy elem1Data.boundingBoxBRy]
  by_cases hdeg : max elem1Data.boundingBoxTLx elem2Data.boundingBoxTLx
      ≥ min elem1Data.boundingBoxBRx elem2Data.boundingBoxBRx
    ∨ max elem1Data.boundingBoxTLy elem2Data.boundingBoxTLy
      ≥ min elem1Data.boundingBoxBRy elem2Data.boundingBoxBRy
  · rw [if_pos hdeg, if_pos hdeg]
  · rw [if_neg hdeg, if_neg hdeg]
    rw [List.append_assoc, List.append_assoc]
    exact List.Perm.append_left _ List.perm_append_comm

theorem foregroundCounts_swap (env : DomEnv) (elem1Data elem2Data : ElementData)
    (hsep : TreeSeparated elem1Data.element elem2Data.element = true) :
    foregroundCounts env elem1Data.element elem2Data.element
        (findQueryPointsInOverlap elem1Data elem2Data)
      = ((foregroundCounts env elem2Data.element elem1Data.element
            (findQueryPointsInOverlap elem2Data elem1Data)).2,
         (foregroundCounts env elem2Data.element elem1Data.element
            (findQueryPointsInOverlap elem2Data elem1Data)).1) := by
  have hperm := findQueryPointsInOverlap_swap_perm elem1Data elem2Data
  have hswap := pointCredit_swap env elem1Data.element elem2Data.element hsep
  rw [foregroundCounts, foregroundCounts]
  have hmap1 : (findQueryPointsInOverlap elem1Data elem2Data).map
        (fun p => (pointCredit env elem1Data.element elem2Data.element p).1)
      = (findQueryPointsInOverlap elem1Data elem2Data).map
        (fun p => (pointCredit env elem2Data.element elem1Data.element p).2) := by
    apply List.map_congr_left
    intro p _
    rw [hswap p]
  have hmap2 : (findQueryPointsInOverlap elem1Data elem2Data).map
        (fun p => (pointCredit env elem1Data.element elem2Data.element p).2)
      = (findQueryPointsInOverlap elem1Data elem2Data).map
        (fun p => (pointCredit env elem2Data.element elem1Data.element p).1) := by
    apply List.map_congr_left
    intro p _
    rw [hswap p]
  rw [hmap1, hmap2]
  exact Prod.ext ((hperm.map _).sum_eq) ((hperm.map _).sum_eq)

/-- C4 (counterexample): the claim that judgeOverlappingElementsForForeground
applied to a pair of descriptors in the two orders always yields values of
opposite sign (or both zero) fails for a pair whose two descriptors carry the
same underlying element: with an oracle that reports that element as topmost
everywhere, both orders are the very same call and return 2, and 2 is not
the negation of 2. -/
theorem judgeOverlapping_antisymm_counterexample :
    judgeOverlappingElementsForForeground c4SelfEnv c4SelfDesc c4SelfDesc = 2
    ∧ judgeOverlappingElementsForForeground c4SelfEnv c4SelfDesc c4SelfDesc
      ≠ -(judgeOverlappingElementsForForeground c4SelfEnv c4SelfDesc c4SelfDesc) := by
  have hcredit : ∀ p : ℚ × ℚ,
      pointCredit c4SelfEnv c4SelfDesc.element c4SelfDesc.element p = (1, 0) := by
    intro p
    simp [pointCredit, containsId, c4SelfEnv, c4SelfDesc, c4SelfElem, subtreeIds,
      subtreeIdsList, Elem.core]
  have hcond : ¬(max c4SelfDesc.boundingBoxTLx c4SelfDesc.boundingBoxTLx
        ≥ min c4SelfDesc.boundingBoxBRx c4SelfDesc.boundingBoxBRx
      ∨ max c4SelfDesc.boundingBoxTLy c4SelfDesc.boundingBoxTLy
        ≥ min c4SelfDesc.boundingBoxBRy c4SelfDesc.boundingBoxBRy) := by
    simp only [c4SelfDesc, max_self, min_self]
    norm_num
  have hne : findQueryPointsInOverlap c4SelfDesc c4SelfDesc ≠ [] := by
    rw [findQueryPointsInOverlap, if_neg hcond]
    simp
  have hlen : 0 < (findQueryPointsInOverlap c4SelfDesc c4SelfDesc).length := by
    rw [findQueryPointsInOverlap, if_neg hcond]
    simp
  have hcounts : foregroundCounts c4SelfEnv c4SelfDesc.element c4SelfDesc.element
      (findQueryPointsInOverlap c4SelfDesc c4SelfDesc)
      = ((findQueryPointsInOverlap c4SelfDesc c4SelfDesc).length, 0) := by
    rw [foregroundCounts]
    constructor
  have hj : judgeOverlappingElementsForForeground c4SelfEnv c4SelfDesc c4SelfDesc = 2 := by
    rw [judgeOverlappingElementsForForeground, if_neg hne, hcounts]
    simp [hlen, Nat.pos_iff_ne_zero.mp hlen]
  exact ⟨hj, by rw [hj]; norm_num⟩

/-- C4 (amended): the foreground judge is antisymmetric for every pair of
descriptors whose underlying elements are two distinct nodes of a tree-shaped
layout - one's subtree containing the other but not conversely, or their
subtrees disjoint (the TreeSeparated hypothesis, satisfied by any two
distinct nodes of a unique-id document tree): against the same fixed
hit-testing oracle, judge(A,B) = -judge(B,A), so 2 swaps with -2, 1 with -1
and 0 stays 0.  For a pair of descriptors of one and the same element the
relation fails (see the counterexample), which is the only correction to the
claim. -/
theorem judgeOverlapping_antisymm (env : DomEnv) (elem1Data elem2Data : ElementData)
    (hsep : TreeSeparated elem1Data.element elem2Data.element = true) :
    judgeOverlappingElementsForForeground env elem1Data elem2Data
      = -(judgeOverlappingElementsForForeground env elem2Data elem1Data) := by
  have hperm := findQueryPointsInOverlap_swap_perm elem1Data elem2Data
  by_cases hemp : findQueryPointsInOverlap elem1Data elem2Data = []
  · have hemp2 : findQueryPointsInOverlap elem2Data elem1Data = [] := by
      rw [hemp] at hperm
      exact (List.Perm.nil_eq hperm).symm
    rw [judgeOverlappingElementsForForeground, if_pos hemp,
      judgeOverlappingElementsForForeground, if_pos hemp2]
    norm_num
  · have hemp2 : findQueryPointsInOverlap elem2Data elem1Data ≠ [] := by
      intro h0
      rw [h0] at hperm
      exact hemp (List.Perm.eq_nil hperm)
    have hcs := foregroundCounts_swap env elem1Data elem2Data hsep
    have hc1 : (foregroundCounts env elem1Data.element elem2Data.element
          (findQueryPointsInOverlap elem1Data elem2Data)).1
        = (foregroundCounts env elem2Data.element elem1Data.element
          (findQueryPointsInOverlap elem2Data elem1Data)).2 := by rw [hcs]
    have hc2 : (foregroundCounts env elem1Data.element elem2Data.element
          (findQueryPointsInOverlap elem1Data elem2Data)).2
        = (foregroundCounts env elem2Data.element elem1Data.element
          (findQueryPointsInOverlap elem2Data elem1Data)).1 := by rw [hcs]
    rw [judgeOverlappingElementsForForeground, if_neg hemp,
      judgeOverlappingElementsForForeground, if_neg hemp2]
    simp only [hc1, hc2]
    split_ifs <;> (try simp) <;> omega

/-- C4 (witness): the amended antisymmetry applied to two concrete distinct
elements with disjoint subtrees and genuinely overlapping boxes. -/
theorem judgeOverlapping_antisymm_witness :
    TreeSeparated c4LeftDesc.element c4RightDesc.element = true
    ∧ judgeOverlappingElementsForForeground c4SelfEnv c4LeftDesc c4RightDesc
      = -(judgeOverlappingElementsForForeground c4SelfEnv c4RightDesc c4LeftDesc) :=
  ⟨by decide,
   judgeOverlapping_antisymm c4SelfEnv c4LeftDesc c4RightDesc (by decide)⟩

mutual
theorem mem_elemScopeAll_id_deepIds : ∀ {e x : Elem},
    x ∈ elemScopeAll e → x.core.id ∈ elemDeepIds e
  | .mk core children sh, x, h => by
    rcases (by simpa [elemScopeAll] using h :
        x = Elem.mk core children sh ∨ x ∈ elemListScopeAll children) with h | h
    · subst h
      simp [elemDeepIds, Elem.core]
    · have := mem_elemListScopeAll_id_deepIds (l := children) h
      simp [elemDeepIds]
      tauto
theorem mem_elemListScopeAll_id_deepIds : ∀ {l : ElemList} {x : Elem},
    x ∈ elemListScopeAll l → x.core.id ∈ elemListDeepIds l
  | .nil, x, h => by simp [elemListScopeAll] at h
  | .cons e tl, x, h => by
    rcases (by simpa [elemListScopeAll] using h :
        x ∈ elemScopeAll e ∨ x ∈ elemListScopeAll tl) with h | h
    · have := mem_elemScopeAll_id_deepIds (e := e) h
      simp [elemListDeepIds]
      tauto
    · have := mem_elemListScopeAll_id_deepIds (l := tl) h
      simp [elemListDeepIds]
      tauto
end

mutual
theorem mem_elemScopeAll_deepIds_subset : ∀ {e x : Elem},
    x ∈ elemScopeAll e → ∀ i ∈ elemDeepIds x, i ∈ elemDeepIds e
  | .mk core children sh, x, h => by
    rcases (by simpa [elemScopeAll] using h :
        x = Elem.mk core children sh ∨ x ∈ elemListScopeAll children) with h | h
    · subst h
      intro i hi
      exact hi
    · intro i hi
      have := mem_elemListScopeAll_deepIds_subset (l := children) h i hi
      simp [elemDeepIds]
      tauto
theorem mem_elemListScopeAll_deepIds_subset : ∀ {l : ElemList} {x : Elem},
    x ∈ elemListScopeAll l → ∀ i ∈ elemDeepIds x, i ∈ elemListDeepIds l
  | .nil, x, h => by simp [elemListScopeAll] at h
  | .cons e tl, x, h => by
    rcases (by simpa [elemListScopeAll] using h :
        x ∈ elemScopeAll e ∨ x ∈ elemListScopeAll tl) with h | h
    · intro i hi
      have := mem_elemScopeAll_deepIds_subset (e := e) h i hi
      simp [elemListDeepIds]
      tauto
    · intro i hi
      have := mem_elemListScopeAll_deepIds_subset (l := tl) h i hi
      simp [elemListDeepIds]
      tauto
end

theorem deepIds_shadowChildren_subset (e : Elem) :
    ∀ i ∈ elemListDeepIds e.shadowChildren, i ∈ elemDeepIds e := by
  cases e with
  | mk core children sh =>
    intro i hi
    simp only [Elem.shadowChildren] at hi
    simp [elemDeepIds]
    tauto

theorem accessibleChildIds_covers : ∀ {nl : IframeNodeList} {c : IframeNode} {f : Elem},
    c ∈ nl.toList → c.iframe = some f → f.core.iframeContentAccessible = true →
    ∀ i, (i ∈ elemListDeepIds c.content ∨ i ∈ accessibleChildIds c.children) →
      i ∈ accessibleChildIds nl
  | .nil, c, f, hc, _, _, _, _ => by simp [IframeNodeList.toList] at hc
  | .cons hd tl, c, f, hc, hf, hacc, i, hi => by
    rcases (by simpa [IframeNodeList.toList] using hc : c = hd ∨ c ∈ tl.toList) with h | h
    · subst h
      cases c with
      | mk iframeOpt ox oy content kids =>
        simp only [IframeNode.iframe] at hf
        subst hf
        simp only [IframeNode.content, IframeNode.children] at hi
        simp [accessibleChildIds, hacc, List.mem_append]
        tauto
    · have := accessibleChildIds_covers h hf hacc i hi
      cases hd with
      | mk iframeOpt ox oy content kids =>
        simp [accessibleChildIds, List.mem_append]
        tauto

theorem mem_setInsert {acc : List Elem} {e x : Elem} (h : x ∈ setInsert acc e) :
    x ∈ acc ∨ x = e := by
  rw [setInsert] at h
  split at h
  · exact Or.inl h
  · rcases List.mem_append.mp h with h | h
    · exact Or.inl h
    · exact Or.inr (by simpa using h)

theorem mem_foldl_of_step {g : List Elem → Elem → List Elem}
    (hg : ∀ acc e x, x ∈ g acc e → x ∈ acc ∨ x = e) :
    ∀ (l acc : List Elem) (x : Elem), x ∈ l.foldl g acc → x ∈ acc ∨ x ∈ l
  | [], acc, x, h => Or.inl h
  | e :: tl, acc, x, h => by
    rw [List.foldl_cons] at h
    rcases mem_foldl_of_step hg tl (g acc e) x h with h2 | h2
    · rcases hg acc e x h2 with h3 | h3
      · exact Or.inl h3
      · exact Or.inr (by simp [h3])
    · exact Or.inr (by simp [h2])

theorem mem_shadowScopesFrom_none {env : DomEnv} {root : ElemList} {node : IframeNode}
    {flag : Bool} {s : ElemList} (hs : s ∈ shadowScopesFrom env root node none flag) :
    ∃ e, e ∈ elemListScopeAll root ∧ e.shadowChildren = s := by
  simp only [shadowScopesFrom, List.mem_map] at hs
  obtain ⟨e, he, hse⟩ := hs
  refine ⟨e, ?_, hse⟩
  have he1 := (List.mem_filter.mp he).1
  split at he1
  · exact (List.mem_filter.mp he1).1
  · exact he1

theorem mem_shadowScopesFrom_some {env : DomEnv} {root : ElemList} {node : IframeNode}
    {cachedHosts : List Elem} {flag : Bool} {s : ElemList}
    (hs : s ∈ shadowScopesFrom env root node (some cachedHosts) flag) :
    ∃ e, e ∈ cachedHosts ∧ e.shadowChildren = s := by
  simp only [shadowScopesFrom, List.mem_map] at hs
  obtain ⟨e, he, hse⟩ := hs
  refine ⟨e, ?_, hse⟩
  split at he
  · exact (List.mem_filter.mp he).1
  · exact he

theorem eqsaHelper_reachable (env : DomEnv) (cssSelectors : List String)
    (root : ElemList) (iframeContextNode : IframeNode)
    (elemFilter : Elem → IframeNode → Bool)
    (cachedShadowRootHostChildren : Option (List Elem)) (shouldIgnoreHidden : Bool)
    (hosted : HostedElem)
    (hmem : hosted ∈ enhancedQuerySelectorAllHelper env cssSelectors root iframeContextNode
        elemFilter cachedShadowRootHostChildren shouldIgnoreHidden) :
    hosted.elem.core.id
      ∈ reachableIds root iframeContextNode cachedShadowRootHostChildren := by
  rw [enhancedQuerySelectorAllHelper] at hmem
  simp only [List.mem_append] at hmem
  rcases hmem with (hmemI | hmemS) | hmemC
  · -- results bubbled up from a child iframe
    obtain ⟨childSub, hchildmem, hbody⟩ := List.mem_flatMap.mp hmemI
    obtain ⟨child, hchild⟩ := childSub
    cases hf : child.iframe with
    | none =>
      simp only [hf] at hbody
      exact absurd hbody (List.not_mem_nil hosted)
    | some f =>
      simp only [hf] at hbody
      by_cases hhid : shouldIgnoreHidden = true
          ∧ calcIsHidden env f iframeContextNode true = true
      · rw [if_pos hhid] at hbody
        simp at hbody
      · rw [if_neg hhid] at hbody
        cases hacc : getIframeContent f child.content with
        | none =>
          simp only [hacc] at hbody
          exact absurd hbody (List.not_mem_nil hosted)
        | some content =>
          simp only [hacc] at hbody
          obtain ⟨h0, hh0, hupd⟩ := List.mem_map.mp hbody
          have hrec := eqsaHelper_reachable env cssSelectors content child elemFilter
            none shouldIgnoreHidden h0 hh0
          rw [getIframeContent] at hacc
          by_cases haccess : f.core.iframeContentAccessible = true
          · rw [if_pos haccess] at hacc
            have hcontent : child.content = content := Option.some.inj hacc
            have helem : hosted.elem = h0.elem := by rw [← hupd]
            rw [helem]
            rw [reachableIds.eq_def] at hrec
            simp only [List.mem_append, accessibleChildIds, List.not_mem_nil,
              or_false, false_or] at hrec
            have hin : h0.elem.core.id ∈ elemListDeepIds child.content
                ∨ h0.elem.core.id ∈ accessibleChildIds child.children := by
              rw [hcontent]
              simpa using hrec
            have hcov := accessibleChildIds_covers hchild hf haccess _ hin
            rw [reachableIds.eq_def]
            simp only [List.mem_append]
            tauto
          · rw [if_neg haccess] at hacc
            cases hacc
  · -- results bubbled up from a shadow root of the current scope
    obtain ⟨sSub, hsmem0, hbody⟩ := List.mem_flatMap.mp hmemS
    obtain ⟨s, hsmem⟩ := sSub
    have hrec := eqsaHelper_reachable env cssSelectors s iframeContextNode elemFilter
      none shouldIgnoreHidden hosted hbody
    rw [reachableIds.eq_def] at hrec
    simp only [List.mem_append, List.not_mem_nil, or_false, false_or] at hrec
    rw [reachableIds.eq_def]
    simp only [List.mem_append]
    rcases hrec with hdeep | hacc
    · rcases hcache : cachedShadowRootHostChildren with _ | cachedHosts
      · rw [hcache] at hsmem
        obtain ⟨e, he, hse⟩ := mem_shadowScopesFrom_none hsmem
        have h1 : hosted.elem.core.id ∈ elemDeepIds e := by
          apply deepIds_shadowChildren_subset
          rw [hse]
          exact hdeep
        have h2 := mem_elemListScopeAll_deepIds_subset he _ h1
        tauto
      · rw [hcache] at hsmem
        obtain ⟨e, he, hse⟩ := mem_shadowScopesFrom_some hsmem
        have h1 : hosted.elem.core.id ∈ elemDeepIds e := by
          apply deepIds_shadowChildren_subset
          rw [hse]
          exact hdeep
        have h2 : hosted.elem.core.id ∈ cachedHosts.flatMap elemDeepIds :=
          List.mem_flatMap.mpr ⟨e, he, h1⟩
        tauto
    · tauto
  · -- current-scope results
    obtain ⟨e, he, hupd⟩ := List.mem_map.mp hmemC
    have helem : hosted.elem = e := by rw [← hupd]
    have hstep : ∀ (acc : List Elem) (y x : Elem),
        x ∈ (if shouldIgnoreHidden = false
              ∨ calcIsHidden env y iframeContextNode false = false
            then setInsert acc y else acc) → x ∈ acc ∨ x = y := by
      intro acc y x hx
      split at hx
      · exact mem_setInsert hx
      · exact Or.inl hx
    rcases mem_foldl_of_step hstep _ _ _ he with hin | hin
    · simp at hin
    · have hescope : e ∈ elemListScopeAll root := by
        rcases List.mem_append.mp hin with hsel | hclick
        · obtain ⟨sel, _, hfetch⟩ := List.mem_flatMap.mp hsel
          have := (List.mem_filter.mp hfetch).1
          rw [fetchElementsByCss] at this
          exact (List.mem_filter.mp this).1
        · exact (List.mem_filter.mp ((List.mem_filter.mp hclick).1)).1
      rw [helem, reachableIds.eq_def]
      simp only [List.mem_append]
      exact Or.inl (Or.inl (mem_elemListScopeAll_id_deepIds hescope))
termination_by
  (sizeOf iframeContextNode,
   (match cachedShadowRootHostChildren with | some _ => 1 | none => 0),
   sizeOf root)
decreasing_by
  · apply Prod.Lex.left
    have h1 := sizeOf_mem_iframeNodeList_toList hchild
    have h2 := sizeOf_children_lt iframeContextNode
    omega
  · rcases cachedShadowRootHostChildren with _ | cachedHosts
    · apply Prod.Lex.right
      apply Prod.Lex.right
      exact sizeOf_mem_shadowScopesFrom hsmem
    · apply Prod.Lex.right
      apply Prod.Lex.left
      exact Nat.zero_lt_one

/-- C2: in every discovery pass (enhancedQuerySelectorAllHelper, hence
enhancedQuerySelectorAll and getInteractiveElements which call it), every
returned element lies within reachableIds of the searched scope - the
current scope, the cached shadow-root hosts, and the contents of accessible
child iframes only.  reachableIds by construction contains nothing from an
iframe whose content document is inaccessible (its branch contributes the
empty list), so under the model's unique-id reading no element inside a
cross-origin iframe appears in the output; and the discovery function is
total (the model of getIframeContent absorbs the SecurityError into `none`),
so the call returns normally with no exception reaching the caller. -/
theorem enhancedQuerySelectorAll_excludes_inaccessible (env : DomEnv)
    (cssSelectors : List String) (root : ElemList) (iframeContextNode : IframeNode)
    (elemFilter : Elem → IframeNode → Bool)
    (cachedShadowRootHostChildren : Option (List Elem)) (shouldIgnoreHidden : Bool) :
    (enhancedQuerySelectorAllHelper env cssSelectors root iframeContextNode elemFilter
        cachedShadowRootHostChildren shouldIgnoreHidden).all
      (fun hosted => decide (hosted.elem.core.id
        ∈ reachableIds root iframeContextNode cachedShadowRootHostChildren)) = true := by
  rw [List.all_eq_true]
  intro hosted hmem
  simpa using eqsaHelper_reachable env cssSelectors root iframeContextNode elemFilter
    cachedShadowRootHostChildren shouldIgnoreHidden hosted hmem
